import Mathlib

/-!
Shallow embedding of the FraudGuard transaction risk scoring and decision
engine from `src/backend/main.py`.

Conventions of the embedding:
* Python floats are modelled as rationals (`ℚ`); machine rounding of IEEE
  doubles is outside the scope of the properties treated here.
* Python strings are Lean `String`s; character-level operations
  (`str.split`, `str.strip`, `str.isdigit`, numeric parsing) are modelled
  by structurally recursive functions on `List Char` so that every
  definition is executable by the kernel.
* Calls to the external Supabase store are modelled by explicit inputs:
  a query that may raise is an `Option` result (`none` = the call raised),
  and an endpoint that may propagate an exception returns `Except`.
* `hashlib.sha256(...).hexdigest()` (`hash_data`) is an uninterpreted
  function parameter `hashData : String → String`; the decision logic only
  uses it through membership tests against the stored hashes.
-/

namespace FraudGuard

/-- Python `str.isdigit()` restricted to ASCII digits: true iff the string is
nonempty and every character is a decimal digit. -/
def isDigitStr (cs : List Char) : Bool :=
  !cs.isEmpty && cs.all Char.isDigit

/-- Numeric value of a string of decimal digits, as `int(x)` computes it. -/
def digitsToNat (cs : List Char) : ℕ :=
  cs.foldl (fun n c => 10 * n + (c.toNat - 48)) 0

/-- Python `str.strip()`: drop whitespace from both ends. -/
def pyStrip (cs : List Char) : List Char :=
  ((cs.dropWhile Char.isWhitespace).reverse.dropWhile Char.isWhitespace).reverse

/-- Unsigned part of Python `float(str)`: digits with an optional single
decimal point; at least one digit overall.  (Exponent forms, `inf` and `nan`
are not produced by the configuration surface and are not modelled.) -/
def parseUFloat? (cs : List Char) : Option ℚ :=
  let ipart := cs.takeWhile Char.isDigit
  match cs.dropWhile Char.isDigit with
  | [] => if ipart.isEmpty then none else some (digitsToNat ipart)
  | c :: frac =>
      if c = '.' && frac.all Char.isDigit && (!ipart.isEmpty || !frac.isEmpty) then
        some ((digitsToNat ipart : ℚ) + (digitsToNat frac : ℚ) / (10 ^ frac.length))
      else none

/-- Python `float(str)` on the stored configuration values: optional sign,
surrounding whitespace tolerated, `none` when the call would raise. -/
def parseFloat? (s : String) : Option ℚ :=
  match pyStrip s.data with
  | [] => none
  | c :: cs =>
      if c = '-' then (parseUFloat? cs).map (fun q => -q)
      else if c = '+' then parseUFloat? cs
      else parseUFloat? (c :: cs)

/-- Unsigned part of Python `int(str)`: digits only. -/
def parseUInt? (cs : List Char) : Option ℤ :=
  if !cs.isEmpty && cs.all Char.isDigit then some (digitsToNat cs) else none

/-- Python `int(str)`: optional sign, digits only, whitespace tolerated;
`none` when the call would raise (for example on `"3.5"`). -/
def parseInt? (s : String) : Option ℤ :=
  match pyStrip s.data with
  | [] => none
  | c :: cs =>
      if c = '-' then (parseUInt? cs).map Neg.neg
      else if c = '+' then parseUInt? cs
      else parseUInt? (c :: cs)

/-- Scan a JSON string literal body up to the closing quote; returns the
literal and the remaining input.  Escape sequences are not modelled: the
stored country lists contain only plain two-letter codes. -/
def scanStrLit : List Char → List Char → Option (String × List Char)
  | [], _ => none
  | '"' :: rest, acc => some (String.mk acc.reverse, rest)
  | c :: rest, acc => scanStrLit rest (c :: acc)

/-- Drop leading whitespace. -/
def skipWs (cs : List Char) : List Char :=
  cs.dropWhile Char.isWhitespace

/-- Fuelled scan of the comma-separated string literals of a JSON array,
after the opening bracket. -/
def scanItems : ℕ → List Char → List String → Option (List String)
  | 0, _, _ => none
  | Nat.succ fuel, cs, acc =>
      match skipWs cs with
      | '"' :: rest =>
          match scanStrLit rest [] with
          | none => none
          | some (s, rest2) =>
              match skipWs rest2 with
              | ',' :: rest3 => scanItems fuel rest3 (s :: acc)
              | ']' :: rest3 =>
                  if (skipWs rest3).isEmpty then some (s :: acc).reverse else none
              | _ => none
      | _ => none

/-- Python `json.loads(value)` specialised to the shape the system stores
for `sensitive_countries`: a JSON array of plain string literals.  Any other
input is modelled as a parse failure (the key is then skipped). -/
def parseJsonStrList? (s : String) : Option (List String) :=
  match skipWs (pyStrip s.data) with
  | '[' :: rest =>
      match skipWs rest with
      | ']' :: rest2 => if (skipWs rest2).isEmpty then some [] else none
      | _ => scanItems (rest.length + 1) rest []
  | _ => none

/-- The ML configuration dictionary built by `get_full_config`. -/
structure Config where
  fraud_threshold_critical : ℚ
  fraud_threshold_medium : ℚ
  sensitive_countries : List String
  min_amount_alert : ℚ
  max_anomalies : ℤ
  auto_block_active : Bool
deriving Repr, DecidableEq

/-- The hardcoded defaults of `get_full_config` (main.py lines 127-134). -/
def default_config : Config :=
  { fraud_threshold_critical := 7/10
    fraud_threshold_medium := 1/2
    sensitive_countries := ["RU", "CN"]
    min_amount_alert := 100
    max_anomalies := 3
    auto_block_active := true }

/-- One iteration of the row loop of `get_full_config` (main.py lines
138-156).  A stored row is a `(key, value)` pair of strings (the operator
update path `update_config` stringifies every stored value).  The result is
`none` exactly when the Python body raises on this row: `float(value)` or
`int(value)` fails.  The `sensitive_countries` branch has its own inner
`try/except` and therefore never raises; the `auto_block_active` membership
test `value in [True, 'true', 'True']` is total. -/
def applyRow (config : Config) (key value : String) : Option Config :=
  if key = "fraud_threshold_high" then
    (parseFloat? value).map (fun q => { config with fraud_threshold_critical := q })
  else if key = "fraud_threshold_medium" then
    (parseFloat? value).map (fun q => { config with fraud_threshold_medium := q })
  else if key = "sensitive_countries" then
    some (match parseJsonStrList? value with
          | some l => { config with sensitive_countries := l }
          | none => config)
  else if key = "min_amount_alert" then
    (parseFloat? value).map (fun q => { config with min_amount_alert := q })
  else if key = "max_anomalies" then
    (parseInt? value).map (fun n => { config with max_anomalies := n })
  else if key = "auto_block_active" then
    some { config with auto_block_active := (value = "true" || value = "True") }
  else some config

/-- The row loop of `get_full_config`.  The whole loop runs inside a single
`try` whose `except` merely logs: an exception raised while processing one
row aborts the remaining rows, and the configuration accumulated so far is
returned. -/
def applyRows : Config → List (String × String) → Config
  | c, [] => c
  | c, (k, v) :: rest =>
      match applyRow c k v with
      | some c2 => applyRows c2 rest
      | none => c

/-- `get_full_config` (main.py lines 122-160).  The input models the result
of the `rules_config` select: `none` when the query itself raises (the
outer `except` then returns the defaults untouched). -/
def get_full_config (fetched : Option (List (String × String))) : Config :=
  match fetched with
  | none => default_config
  | some rows => applyRows default_config rows

/-- `MockXGBoost.HIGH_RISK_CATEGORIES`. -/
def HIGH_RISK_CATEGORIES : List String := ["Electronics", "Jewelry", "Gambling"]

/-- `MockXGBoost.MEDIUM_RISK_CATEGORIES`. -/
def MEDIUM_RISK_CATEGORIES : List String := ["Travel", "Services", "Crypto"]

/-- Rule 1 of `MockXGBoost.predict` (main.py lines 72-82): the progressive
amount tier bonus. -/
def amountTier (amount : ℚ) : ℚ :=
  if amount > 8000 then 45/100
  else if amount > 5000 then 35/100
  else if amount > 2000 then 30/100
  else if amount > 1000 then 20/100
  else if amount > 500 then 10/100
  else 0

/-- Rule 2 of `MockXGBoost.predict` (main.py lines 84-89): the stripped
category is tested for exact membership in the risk category lists.
(`category or ''` only replaces Python `None` by the empty string; with
string-typed categories it is the identity.) -/
def categoryBonus (category : String) : ℚ :=
  let c := String.mk (pyStrip category.data)
  if c ∈ HIGH_RISK_CATEGORIES then 30/100
  else if c ∈ MEDIUM_RISK_CATEGORIES then 20/100
  else 0

/-- Rule 3 of `MockXGBoost.predict` (main.py lines 91-93): a fixed bonus
when the derived country is truthy and belongs to the configured sensitive
list. -/
def countryBonus (country : String) (sensitive : List String) : ℚ :=
  if country ≠ "" ∧ country ∈ sensitive then 25/100 else 0

/-- The accumulated score of `MockXGBoost.predict` after rules 1-3, before
the small-amount damping: base 0.05 plus the three additive bonuses. -/
def rawScore (amount : ℚ) (category country : String) (config : Config) : ℚ :=
  5/100 + amountTier amount + categoryBonus category
    + countryBonus country config.sensitive_countries

/-- Rule 4 of `MockXGBoost.predict` (main.py lines 95-97): amounts below
`config.min_amount_alert` halve the accumulated total. -/
def dampedScore (amount : ℚ) (category country : String) (config : Config) : ℚ :=
  if amount < config.min_amount_alert then
    rawScore amount category country config * (1/2)
  else
    rawScore amount category country config

/-- `MockXGBoost.predict` (main.py lines 53-102).  The noise draw
`np.random.normal(0, 0.05)` is an explicit input; the final value is the
noisy damped score clamped to `[0, 1]`.  When `analyze_transaction` calls
it, `config` always carries every key, so the `config.get` defaults of the
source never fire and are subsumed by the `Config` structure. -/
def predict (amount : ℚ) (category country : String) (config : Config)
    (noise : ℚ) : ℚ :=
  min (max (dampedScore amount category country config + noise) 0) 1

/-- The fixed country list of `get_country_from_ip` (main.py line 116). -/
def countries : List String := ["FR", "US", "RU", "CN", "BR", "DE", "GB"]

/-- Python `ip.split('.')` as a structural recursion on the character list,
producing empty segments exactly as `str.split` does. -/
def splitOnDot : List Char → List (List Char)
  | [] => [[]]
  | c :: rest =>
      let r := splitOnDot rest
      if c = '.' then [] :: r
      else
        match r with
        | [] => [[c]]
        | p :: ps => (c :: p) :: ps

/-- The octet sum of `get_country_from_ip`: `sum(int(x) for x in
ip.split('.') if x.isdigit())`. -/
def ipHashVal (parts : List (List Char)) : ℕ :=
  (parts.filter (fun x => isDigitStr x)).foldl (fun acc x => acc + digitsToNat x) 0

/-- `get_country_from_ip` (main.py lines 107-119).  An empty (falsy) input
returns the fallback `"FR"`.  In the embedding the guarded `except` branch
is unreachable: digit-filtered octets always convert, and the index is
reduced modulo the list length, so the list lookup (modelled with the
fallback as its default) never misses. -/
def get_country_from_ip (ip : String) : String :=
  if ip.data.isEmpty then "FR"
  else countries.getD (ipHashVal (splitOnDot ip.data) % countries.length) "FR"

/-- The request body of the `/analyze` endpoint (`TransactionInput`). -/
structure TransactionInput where
  user_id : String
  amount : ℚ
  currency : String := "EUR"
  ip_address : String
  merchant : String
  category : String
  device_id : Option String := none
deriving Repr, DecidableEq

/-- `check_ban_list` (main.py lines 168-177).  `banTable` models the
`suspicious_entities.entity_hash` column; `none` means the select raised,
and the exception propagates (the function has no handler).  A row matches
when its hash equals the hashed IP; the result is `len(matches) > 0`.  The
`user_id` argument is accepted but, as in the source, never used. -/
def check_ban_list (hashData : String → String) (banTable : Option (List String))
    (ip : String) (user_id : String) : Except String Bool :=
  let ip_hash := hashData ip
  match banTable with
  | none => Except.error "BanListLookupFailure"
  | some hashes =>
      Except.ok (decide (0 < (hashes.filter (fun h => h = ip_hash)).length))

/-- Python `round(x, 4)` on the final score.  (Mathlib `round` rounds halves
up rather than to even; the exact-half behaviour of float `round` is not
load-bearing for any property below.) -/
def round4 (q : ℚ) : ℚ :=
  (round (q * 10000) : ℤ) / 10000

/-- The threshold rule block of `analyze_transaction` (main.py lines
272-284): action, severity and the `create_alert` flag, with inclusive
comparisons against the configured thresholds. -/
def decisionPolicy (score : ℚ) (config : Config) : String × String × Bool :=
  if score ≥ config.fraud_threshold_critical then ("BLOCK", "CRITIQUE", true)
  else if score ≥ config.fraud_threshold_medium then ("REVIEW", "MOYENNE", true)
  else ("ALLOW", "BASSE", false)

/-- Observable outcome of one `/analyze` call, as the caller and the alert
store see it: the JSON response fields (`action`, optional `score`,
optional `reason`), whether an alert row was inserted and with which
severity, and whether the `MockXGBoost.predict` call was reached on this
control path. -/
structure AnalyzeOutcome where
  action : String
  score? : Option ℚ
  reason? : Option String
  alertCreated : Bool
  alertSeverity? : Option String
  modelInvoked : Bool
deriving Repr, DecidableEq

/-- The banned short-circuit of `analyze_transaction` (main.py lines
223-238): response `{action: BLOCK, reason: BLACKLIST_MATCH}` with no
score, a `CRITIQUE` alert inserted, and the model never reached. -/
def bannedOutcome : AnalyzeOutcome :=
  { action := "BLOCK"
    score? := none
    reason? := some "BLACKLIST_MATCH"
    alertCreated := true
    alertSeverity? := some "CRITIQUE"
    modelInvoked := false }

/-- The scored path of `analyze_transaction` (main.py lines 240-302):
config fetch, country derivation, model inference, threshold policy, alert
creation when flagged, and the response carrying the score rounded to four
decimals. -/
def scoredOutcome (tx : TransactionInput) (config : Config) (noise : ℚ) :
    AnalyzeOutcome :=
  let country := get_country_from_ip tx.ip_address
  let fraud_score := predict tx.amount tx.category country config noise
  let d := decisionPolicy fraud_score config
  { action := d.1
    score? := some (round4 fraud_score)
    reason? := none
    alertCreated := d.2.2
    alertSeverity? := if d.2.2 then some d.2.1 else none
    modelInvoked := true }

/-- `analyze_transaction` (main.py lines 197-302).  The initial transaction
insert and the prediction insert are modelled as succeeding (their failure
paths raise before any Decision exists and are orthogonal to the properties
below).  A failure of the ban-list query propagates out of the endpoint
unhandled. -/
def analyze_transaction (hashData : String → String) (tx : TransactionInput)
    (banTable : Option (List String))
    (configFetch : Option (List (String × String))) (noise : ℚ) :
    Except String AnalyzeOutcome :=
  match check_ban_list hashData banTable tx.ip_address tx.user_id with
  | Except.error e => Except.error e
  | Except.ok true => Except.ok bannedOutcome
  | Except.ok false =>
      Except.ok (scoredOutcome tx (get_full_config configFetch) noise)

/-- Concrete safe transaction used by several witnesses (scenario 1 of
`tests/test_api.py`). -/
def txFood : TransactionInput :=
  { user_id := "jean_dupont", amount := 45, ip_address := "192.168.1.1",
    merchant := "Uber Eats", category := "Food" }

lemma check_ban_list_pos (hashData : String → String) (hashes : List String)
    (ip uid : String) (h : hashData ip ∈ hashes) :
    check_ban_list hashData (some hashes) ip uid = Except.ok true := by
  have hfil : hashData ip ∈ hashes.filter (fun h2 => h2 = hashData ip) :=
    List.mem_filter.mpr ⟨h, by simp⟩
  have hlen : 0 < (hashes.filter (fun h2 => h2 = hashData ip)).length :=
    List.length_pos.mpr (List.ne_nil_of_mem hfil)
  simp [check_ban_list, hlen]

lemma check_ban_list_neg (hashData : String → String) (hashes : List String)
    (ip uid : String) (h : hashData ip ∉ hashes) :
    check_ban_list hashData (some hashes) ip uid = Except.ok false := by
  have hfil : hashes.filter (fun h2 => h2 = hashData ip) = [] := by
    refine List.filter_eq_nil_iff.mpr (fun a ha => ?_)
    simp only [decide_eq_true_eq]
    intro heq
    exact h (heq ▸ ha)
  simp [check_ban_list, hfil]

lemma decisionPolicy_action_mem (score : ℚ) (config : Config) :
    (decisionPolicy score config).1 ∈ ["ALLOW", "REVIEW", "BLOCK"] := by
  unfold decisionPolicy
  split_ifs <;> simp

/-- C1: a transaction whose hashed IP is in the ban list is decided on the
short-circuit path: the analyze call returns action `BLOCK` with reason
`BLACKLIST_MATCH`, inserts a `CRITIQUE` (critical) severity alert, and the
`MockXGBoost.predict` scoring function is not reached on this control path
(`modelInvoked = false`), whatever the configuration fetch and noise draw. -/
theorem C1_ban_overrides_scoring (hashData : String → String)
    (tx : TransactionInput) (hashes : List String)
    (configFetch : Option (List (String × String))) (noise : ℚ)
    (hmem : hashData tx.ip_address ∈ hashes) :
    analyze_transaction hashData tx (some hashes) configFetch noise =
      Except.ok bannedOutcome ∧
    bannedOutcome.action = "BLOCK" ∧
    bannedOutcome.reason? = some "BLACKLIST_MATCH" ∧
    bannedOutcome.alertCreated = true ∧
    bannedOutcome.alertSeverity? = some "CRITIQUE" ∧
    bannedOutcome.modelInvoked = false := by
  refine ⟨?_, rfl, rfl, rfl, rfl, rfl⟩
  unfold analyze_transaction
  rw [check_ban_list_pos hashData hashes tx.ip_address tx.user_id hmem]

/-- Witness for C1 at a concrete banned transaction. -/
theorem C1_ban_overrides_scoring_witness :
    (fun s => s) "46.121.191.99" ∈ ["46.121.191.99"] ∧
    analyze_transaction (fun s => s)
      { user_id := "hacker_123", amount := 10000, ip_address := "46.121.191.99",
        merchant := "Apple Store", category := "Electronics" }
      (some ["46.121.191.99"]) none 0 = Except.ok bannedOutcome :=
  ⟨by simp,
   (C1_ban_overrides_scoring (fun s => s)
      { user_id := "hacker_123", amount := 10000, ip_address := "46.121.191.99",
        merchant := "Apple Store", category := "Electronics" }
      ["46.121.191.99"] none 0 (by simp)).1⟩

/-- C4: when the ban-list membership query raises, `check_ban_list` has no
handler and `analyze_transaction` propagates the failure as an error: the
caller receives no Decision at all, so the transaction is never implicitly
treated as not banned. -/
theorem C4_banlist_failure_propagates (hashData : String → String)
    (tx : TransactionInput) (configFetch : Option (List (String × String)))
    (noise : ℚ) :
    check_ban_list hashData none tx.ip_address tx.user_id =
      Except.error "BanListLookupFailure" ∧
    analyze_transaction hashData tx none configFetch noise =
      Except.error "BanListLookupFailure" ∧
    ∀ o : AnalyzeOutcome,
      analyze_transaction hashData tx none configFetch noise ≠ Except.ok o := by
  refine ⟨rfl, rfl, fun o h => ?_⟩
  simp [analyze_transaction, check_ban_list] at h

/-- C5: when the configuration fetch raises, `get_full_config` returns the
built-in defaults (critical 0.70, medium 0.50, sensitive countries RU/CN,
minimum amount 100, max anomalies 3, auto-block on), and a non-banned
analyze call still succeeds with the Decision computed from those defaults,
whose action is one of ALLOW/REVIEW/BLOCK. -/
theorem C5_config_fetch_failure_defaults (hashData : String → String)
    (tx : TransactionInput) (hashes : List String) (noise : ℚ)
    (hnb : hashData tx.ip_address ∉ hashes) :
    get_full_config none = default_config ∧
    default_config =
      { fraud_threshold_critical := 7/10, fraud_threshold_medium := 1/2,
        sensitive_countries := ["RU", "CN"], min_amount_alert := 100,
        max_anomalies := 3, auto_block_active := true } ∧
    analyze_transaction hashData tx (some hashes) none noise =
      Except.ok (scoredOutcome tx default_config noise) ∧
    (scoredOutcome tx default_config noise).action ∈ ["ALLOW", "REVIEW", "BLOCK"] := by
  refine ⟨rfl, rfl, ?_, ?_⟩
  · unfold analyze_transaction
    rw [check_ban_list_neg hashData hashes tx.ip_address tx.user_id hnb]
    rfl
  · simpa [scoredOutcome] using
      decisionPolicy_action_mem
        (predict tx.amount tx.category (get_country_from_ip tx.ip_address)
          default_config noise) default_config

/-- Witness for C5 at a concrete non-banned transaction with an unreachable
config store. -/
theorem C5_config_fetch_failure_defaults_witness :
    (fun s => s) txFood.ip_address ∉ ([] : List String) ∧
    analyze_transaction (fun s => s) txFood (some []) none 0 =
      Except.ok (scoredOutcome txFood default_config 0) :=
  ⟨by simp,
   (C5_config_fetch_failure_defaults (fun s => s) txFood [] 0 (by simp)).2.2.1⟩

/-- C3 counterexample: the claim asserts that every successful analyze
result carries a numeric rounded score "on the blacklist-banned path as
well".  At this concrete banned transaction the call succeeds
(`Except.ok`), yet the response is `bannedOutcome`, whose `score?` field is
`none`: the banned-path response `{action, reason, transaction_id}` of the
source contains no score at all. -/
theorem C3_counterexample :
    analyze_transaction (fun s => s)
      { user_id := "u1", amount := 10, ip_address := "9.9.9.9",
        merchant := "m", category := "Food" }
      (some ["9.9.9.9"]) none 0 = Except.ok bannedOutcome ∧
    bannedOutcome.score? = none ∧
    ∀ q : ℚ, bannedOutcome.score? ≠ some q := by
  refine ⟨?_, rfl, fun q h => by cases h⟩
  unfold analyze_transaction
  rw [check_ban_list_pos (fun s => s) ["9.9.9.9"] "9.9.9.9" "u1" (by simp)]

/-- C3 amended: every successful analyze result has an action among
ALLOW/REVIEW/BLOCK; on the scored path (no blacklist reason) the response
carries the risk score rounded to 4 decimal places, while the banned-path
response carries no score field. -/
theorem C3_amended_response_shape (hashData : String → String)
    (tx : TransactionInput) (banTable : Option (List String))
    (configFetch : Option (List (String × String))) (noise : ℚ)
    (o : AnalyzeOutcome)
    (h : analyze_transaction hashData tx banTable configFetch noise = Except.ok o) :
    o.action ∈ ["ALLOW", "REVIEW", "BLOCK"] ∧
    (o.reason? = none →
      o.score? = some (round4 (predict tx.amount tx.category
        (get_country_from_ip tx.ip_address) (get_full_config configFetch) noise))) ∧
    (o.reason? = some "BLACKLIST_MATCH" → o.score? = none) := by
  cases banTable with
  | none => simp [analyze_transaction, check_ban_list] at h
  | some hashes =>
      by_cases hb : hashData tx.ip_address ∈ hashes
      · have ho : o = bannedOutcome := by
          rw [analyze_transaction,
            check_ban_list_pos hashData hashes tx.ip_address tx.user_id hb] at h
          exact (Except.ok.injEq _ _ ▸ h).symm
        subst ho
        refine ⟨by simp [bannedOutcome], fun hr => ?_, fun _ => rfl⟩
        simp [bannedOutcome] at hr
      · have ho : o = scoredOutcome tx (get_full_config configFetch) noise := by
          rw [analyze_transaction,
            check_ban_list_neg hashData hashes tx.ip_address tx.user_id hb] at h
          exact (Except.ok.injEq _ _ ▸ h).symm
        subst ho
        refine ⟨?_, fun _ => rfl, fun hr => by simp [scoredOutcome] at hr⟩
        simpa [scoredOutcome] using
          decisionPolicy_action_mem
            (predict tx.amount tx.category (get_country_from_ip tx.ip_address)
              (get_full_config configFetch) noise) (get_full_config configFetch)

/-- Witness for the amended C3 at a concrete scored transaction. -/
theorem C3_amended_response_shape_witness :
    analyze_transaction (fun s => s) txFood (some []) none 0 =
      Except.ok (scoredOutcome txFood default_config 0) ∧
    (scoredOutcome txFood default_config 0).action ∈ ["ALLOW", "REVIEW", "BLOCK"] := by
  have hrun : analyze_transaction (fun s => s) txFood (some []) none 0 =
      Except.ok (scoredOutcome txFood default_config 0) := by
    unfold analyze_transaction
    rw [check_ban_list_neg (fun s => s) [] txFood.ip_address txFood.user_id (by simp)]
    rfl
  exact ⟨hrun,
    (C3_amended_response_shape (fun s => s) txFood (some []) none 0
      (scoredOutcome txFood default_config 0) hrun).1⟩

/-- C6 counterexample: the claim quantifies over every configuration, but
with an (unvalidated) configuration whose critical threshold 0.30 lies
below the medium threshold 0.50, a score of 0.40 is strictly below the
medium threshold yet the engine takes the first inclusive branch and
returns BLOCK, not the ALLOW the claim requires for `score <
fraud_threshold_medium`. -/
theorem C6_counterexample :
    (2/5 : ℚ) < (Config.mk (3/10) (1/2) ["RU", "CN"] 100 3 true).fraud_threshold_medium ∧
    decisionPolicy (2/5) (Config.mk (3/10) (1/2) ["RU", "CN"] 100 3 true) =
      ("BLOCK", "CRITIQUE", true) ∧
    (("BLOCK", "CRITIQUE", true) : String × String × Bool) ≠ ("ALLOW", "BASSE", false) := by
  refine ⟨by norm_num, ?_, by simp⟩
  unfold decisionPolicy
  norm_num

/-- C6 amended: provided the thresholds are ordered (medium ≤ critical,
the invariant the spec flags as unenforced), the non-banned decision rule
is exactly the claimed inclusive three-way split: `score ≥ critical` gives
BLOCK/CRITIQUE with an alert, `medium ≤ score < critical` gives
REVIEW/MOYENNE with an alert, `score < medium` gives ALLOW/BASSE with no
alert; and the scored analyze outcome exposes precisely this policy's
action, alert flag and alert severity. -/
theorem C6_amended_threshold_policy (score : ℚ) (cfg : Config)
    (tx : TransactionInput) (noise : ℚ)
    (hord : cfg.fraud_threshold_medium ≤ cfg.fraud_threshold_critical) :
    (cfg.fraud_threshold_critical ≤ score →
      decisionPolicy score cfg = ("BLOCK", "CRITIQUE", true)) ∧
    (cfg.fraud_threshold_medium ≤ score → score < cfg.fraud_threshold_critical →
      decisionPolicy score cfg = ("REVIEW", "MOYENNE", true)) ∧
    (score < cfg.fraud_threshold_medium →
      decisionPolicy score cfg = ("ALLOW", "BASSE", false)) ∧
    (scoredOutcome tx cfg noise).action =
      (decisionPolicy (predict tx.amount tx.category
        (get_country_from_ip tx.ip_address) cfg noise) cfg).1 ∧
    (scoredOutcome tx cfg noise).alertCreated =
      (decisionPolicy (predict tx.amount tx.category
        (get_country_from_ip tx.ip_address) cfg noise) cfg).2.2 ∧
    (scoredOutcome tx cfg noise).alertSeverity? =
      (if (decisionPolicy (predict tx.amount tx.category
          (get_country_from_ip tx.ip_address) cfg noise) cfg).2.2 then
        some (decisionPolicy (predict tx.amount tx.category
          (get_country_from_ip tx.ip_address) cfg noise) cfg).2.1
      else none) := by
  refine ⟨fun h1 => ?_, fun h2 h3 => ?_, fun h4 => ?_, rfl, rfl, rfl⟩
  · unfold decisionPolicy
    rw [if_pos h1]
  · unfold decisionPolicy
    rw [if_neg (by linarith), if_pos h2]
  · unfold decisionPolicy
    rw [if_neg (by linarith), if_neg (by linarith)]

/-- Witness for the amended C6: under the default ordered thresholds the
boundary score 0.50 takes the REVIEW branch and 0.70 takes BLOCK. -/
theorem C6_amended_threshold_policy_witness :
    default_config.fraud_threshold_medium ≤ default_config.fraud_threshold_critical ∧
    decisionPolicy (1/2) default_config = ("REVIEW", "MOYENNE", true) ∧
    decisionPolicy (7/10) default_config = ("BLOCK", "CRITIQUE", true) := by
  have hord : default_config.fraud_threshold_medium ≤
      default_config.fraud_threshold_critical := by
    norm_num [default_config]
  refine ⟨hord, ?_, ?_⟩
  · exact (C6_amended_threshold_policy (1/2) default_config txFood 0 hord).2.1
      (by norm_num [default_config]) (by norm_num [default_config])
  · exact (C6_amended_threshold_policy (7/10) default_config txFood 0 hord).1
      (by norm_num [default_config])

/-- C7: the amount-tier contribution is monotone — a strictly larger amount
never adds a smaller tier bonus — with tiers that add exactly 0.10, 0.20,
0.30, 0.35, 0.45 above the breakpoints 500, 1000, 2000, 5000, 8000, these
five bonuses being strictly increasing; and every amount at or below 500
(negative amounts included) contributes no bonus at all. -/
theorem C7_amount_tier_monotone (a1 a2 : ℚ) (h : a1 < a2) :
    amountTier a1 ≤ amountTier a2 ∧
    (∀ a : ℚ, a ≤ 500 → amountTier a = 0) ∧
    (∀ a : ℚ, 500 < a → a ≤ 1000 → amountTier a = 10/100) ∧
    (∀ a : ℚ, 1000 < a → a ≤ 2000 → amountTier a = 20/100) ∧
    (∀ a : ℚ, 2000 < a → a ≤ 5000 → amountTier a = 30/100) ∧
    (∀ a : ℚ, 5000 < a → a ≤ 8000 → amountTier a = 35/100) ∧
    (∀ a : ℚ, 8000 < a → amountTier a = 45/100) ∧
    ((0 : ℚ) < 10/100 ∧ (10/100 : ℚ) < 20/100 ∧ (20/100 : ℚ) < 30/100 ∧
      (30/100 : ℚ) < 35/100 ∧ (35/100 : ℚ) < 45/100) := by
  refine ⟨?_, ?_, ?_, ?_, ?_, ?_, ?_, by norm_num⟩
  · unfold amountTier
    split_ifs <;> linarith
  all_goals
    intro a ha1
    try intro ha2
  all_goals
    unfold amountTier
    split_ifs <;> first | rfl | linarith

/-- Witness for C7 at the concrete pair 400 < 600. -/
theorem C7_amount_tier_monotone_witness :
    (400 : ℚ) < 600 ∧
    amountTier 400 ≤ amountTier 600 ∧ (∀ a : ℚ, a ≤ 500 → amountTier a = 0) :=
  ⟨by norm_num,
   (C7_amount_tier_monotone 400 600 (by norm_num)).1,
   (C7_amount_tier_monotone 400 600 (by norm_num)).2.1⟩

/-- C8: when the amount is below `min_amount_alert` the damping halves the
whole accumulated score (base plus the amount, category and country
bonuses), strictly after the bonuses and strictly before the noise term and
the clamp; and at amount 50 with category Food under the default
configuration and zero noise, the prediction equals exactly half of the
undamped equivalent (the same pipeline with the halving skipped). -/
theorem C8_small_amount_damping (amount : ℚ) (category country : String)
    (cfg : Config) (noise : ℚ) (h : amount < cfg.min_amount_alert) :
    dampedScore amount category country cfg =
      rawScore amount category country cfg * (1/2) ∧
    predict amount category country cfg noise =
      min (max (rawScore amount category country cfg * (1/2) + noise) 0) 1 ∧
    predict 50 "Food" "FR" default_config 0 =
      (1/2) * min (max (rawScore 50 "Food" "FR" default_config + 0) 0) 1 := by
  refine ⟨if_pos h, ?_, ?_⟩
  · rw [predict, dampedScore, if_pos h]
  · simp +decide [predict, dampedScore, rawScore, amountTier, categoryBonus,
      countryBonus, pyStrip, default_config, HIGH_RISK_CATEGORIES,
      MEDIUM_RISK_CATEGORIES]
    norm_num [min_def, max_def]

/-- Witness for C8 at amount 50 under the default configuration. -/
theorem C8_small_amount_damping_witness :
    (50 : ℚ) < default_config.min_amount_alert ∧
    dampedScore 50 "Food" "FR" default_config =
      rawScore 50 "Food" "FR" default_config * (1/2) :=
  ⟨by norm_num [default_config],
   (C8_small_amount_damping 50 "Food" "FR" default_config 0
      (by norm_num [default_config])).1⟩

lemma splitOnDot_no_dot (xs : List Char) (h : '.' ∉ xs) :
    splitOnDot xs = [xs] := by
  induction xs with
  | nil => rfl
  | cons c rest ih =>
      have hc : c ≠ '.' := fun hcd => h (hcd ▸ List.mem_cons_self c rest)
      have hr : '.' ∉ rest := fun hm => h (List.mem_cons_of_mem c hm)
      simp only [splitOnDot, if_neg hc, ih hr]

lemma splitOnDot_append_sep (xs rest : List Char) (h : '.' ∉ xs) :
    splitOnDot (xs ++ '.' :: rest) = xs :: splitOnDot rest := by
  induction xs with
  | nil => simp [splitOnDot]
  | cons c tail ih =>
      have hc : c ≠ '.' := fun hcd => h (hcd ▸ List.mem_cons_self c tail)
      have ht : '.' ∉ tail := fun hm => h (List.mem_cons_of_mem c hm)
      have ihh := ih ht
      simp only [List.cons_append, splitOnDot, if_neg hc, List.append_eq]
      rw [ihh]

lemma not_dot_of_isDigitStr (xs : List Char) (h : isDigitStr xs = true) :
    '.' ∉ xs := by
  intro hm
  have hall := (Bool.and_eq_true _ _ |>.mp h).2
  have := (List.all_eq_true.mp hall) '.' hm
  simp at this

/-- C9 counterexample: the claim says every malformed input (one with
non-digit octets) returns the fixed fallback country.  The address
`"2.2.x.x"` has two non-digit octets, yet the source silently drops them
and indexes with the remaining digit sum 4, returning `"BR"` — not the
fallback `"FR"`. -/
theorem C9_counterexample :
    ((splitOnDot "2.2.x.x".data).filter (fun x => !(isDigitStr x))) ≠ [] ∧
    get_country_from_ip "2.2.x.x" = "BR" ∧
    "BR" ≠ "FR" := by
  refine ⟨by decide, by decide, by decide⟩

/-- C9 amended: `get_country_from_ip` is total and deterministic, and for a
well-formed dotted quad of numeric octets it returns the element of the
fixed seven-country list at index (sum of octets) mod 7; inputs none of
whose octets are numeric (the empty string included) return the fallback
`"FR"`; in general non-digit octets are ignored rather than forcing the
fallback, and the result is always one of the seven codes. -/
theorem C9_amended_geoheuristic (a b c d : List Char)
    (ha : isDigitStr a = true) (hb : isDigitStr b = true)
    (hc : isDigitStr c = true) (hd : isDigitStr d = true) :
    get_country_from_ip (String.mk (a ++ '.' :: (b ++ '.' :: (c ++ '.' :: d)))) =
      countries.getD
        ((digitsToNat a + digitsToNat b + digitsToNat c + digitsToNat d) % 7) "FR" ∧
    (∀ ip : String, (splitOnDot ip.data).all (fun x => !(isDigitStr x)) = true →
      get_country_from_ip ip = "FR") ∧
    (∀ ip : String, get_country_from_ip ip ∈ countries) := by
  refine ⟨?_, ?_, ?_⟩
  · have hdata : (String.mk (a ++ '.' :: (b ++ '.' :: (c ++ '.' :: d)))).data =
        a ++ '.' :: (b ++ '.' :: (c ++ '.' :: d)) := rfl
    have hsplit : splitOnDot (a ++ '.' :: (b ++ '.' :: (c ++ '.' :: d))) =
        [a, b, c, d] := by
      rw [splitOnDot_append_sep a _ (not_dot_of_isDigitStr a ha),
        splitOnDot_append_sep b _ (not_dot_of_isDigitStr b hb),
        splitOnDot_append_sep c _ (not_dot_of_isDigitStr c hc),
        splitOnDot_no_dot d (not_dot_of_isDigitStr d hd)]
    have hne : (String.mk (a ++ '.' :: (b ++ '.' :: (c ++ '.' :: d)))).data.isEmpty
        = false := by
      cases a with
      | nil => simp [isDigitStr] at ha
      | cons x xs => rfl
    rw [get_country_from_ip, hdata, hne]
    simp only [Bool.false_eq_true, if_false, hsplit, ipHashVal, List.filter_cons,
      ha, hb, hc, hd, List.filter_nil, List.foldl_cons, List.foldl_nil]
    norm_num [countries]
  · intro ip hall
    rw [get_country_from_ip]
    by_cases hemp : ip.data.isEmpty
    · rw [if_pos hemp]
    · rw [if_neg hemp]
      have hfil : (splitOnDot ip.data).filter (fun x => isDigitStr x) = [] := by
        refine List.filter_eq_nil_iff.mpr (fun x hx => ?_)
        have := (List.all_eq_true.mp hall) x hx
        simp only [Bool.not_eq_true'] at this
        simp [this]
      rw [ipHashVal, hfil]
      rfl
  · intro ip
    rw [get_country_from_ip]
    by_cases hemp : ip.data.isEmpty
    · rw [if_pos hemp]; decide
    · rw [if_neg hemp]
      have hlt : ipHashVal (splitOnDot ip.data) % countries.length <
          countries.length := Nat.mod_lt _ (by decide)
      rw [List.getD_eq_getElem?_getD, List.getElem?_eq_getElem hlt]
      exact List.getElem_mem hlt

/-- Witness for the amended C9 at the well-formed quad `1.2.3.4`. -/
theorem C9_amended_geoheuristic_witness :
    isDigitStr ['1'] = true ∧ isDigitStr ['2'] = true ∧
    isDigitStr ['3'] = true ∧ isDigitStr ['4'] = true ∧
    get_country_from_ip
        (String.mk (['1'] ++ '.' :: (['2'] ++ '.' :: (['3'] ++ '.' :: ['4'])))) =
      countries.getD
        ((digitsToNat ['1'] + digitsToNat ['2'] + digitsToNat ['3'] +
          digitsToNat ['4']) % 7) "FR" :=
  ⟨by decide, by decide, by decide, by decide,
   (C9_amended_geoheuristic ['1'] ['2'] ['3'] ['4']
      (by decide) (by decide) (by decide) (by decide)).1⟩

/-- C2 counterexample: the claim says a malformed value for one key skips
only that key and later rows are still applied.  With the stored rows
`[("fraud_threshold_high", "abc"), ("fraud_threshold_medium", "0.3")]`, the
`float("abc")` failure raises inside the single loop-wide `try`, so the
perfectly parseable later row is never processed: the returned
configuration still has the default medium threshold 0.50 instead of the
stored 0.30. -/
theorem C2_counterexample :
    parseFloat? "abc" = none ∧
    parseFloat? "0.3" = some (3/10) ∧
    get_full_config
        (some [("fraud_threshold_high", "abc"), ("fraud_threshold_medium", "0.3")]) =
      default_config ∧
    default_config.fraud_threshold_medium = 1/2 ∧
    (1/2 : ℚ) ≠ 3/10 := by
  refine ⟨by decide, ?_, ?_, rfl, by norm_num⟩
  · simp +decide [parseFloat?, parseUFloat?, pyStrip, digitsToNat]
  · simp +decide [get_full_config, applyRows, applyRow, parseFloat?, parseUFloat?,
      pyStrip]

/-- C2 amended: a row whose numeric value fails to parse (for example a
non-numeric `fraud_threshold_high`) aborts the processing of all
*subsequent* rows — the configuration accumulated so far is returned with
every remaining key at its default, and the fetch itself still returns
without raising — while a malformed `sensitive_countries` value alone is
skipped per-key by its inner handler, leaving that configuration
unchanged and the loop running. -/
theorem C2_amended_config_abort (c : Config) (v : String)
    (rest : List (String × String)) (hbad : parseFloat? v = none) :
    applyRows c (("fraud_threshold_high", v) :: rest) = c ∧
    (∀ (c2 : Config) (s : String) (rest2 : List (String × String)),
      parseJsonStrList? s = none →
        applyRows c2 (("sensitive_countries", s) :: rest2) = applyRows c2 rest2) := by
  constructor
  · simp [applyRows, applyRow, hbad]
  · intro c2 s rest2 hjson
    simp +decide [applyRows, applyRow, hjson]

/-- Witness for the amended C2 at the concrete malformed value "abc". -/
theorem C2_amended_config_abort_witness :
    parseFloat? "abc" = none ∧
    applyRows default_config
        [("fraud_threshold_high", "abc"), ("fraud_threshold_medium", "0.3")] =
      default_config :=
  ⟨by decide,
   (C2_amended_config_abort default_config "abc"
      [("fraud_threshold_medium", "0.3")] (by decide)).1⟩

/-- Two configurations that agree on every field except possibly
`auto_block_active`. -/
def configAgreeExceptAutoBlock (c1 c2 : Config) : Prop :=
  c1.fraud_threshold_critical = c2.fraud_threshold_critical ∧
  c1.fraud_threshold_medium = c2.fraud_threshold_medium ∧
  c1.sensitive_countries = c2.sensitive_countries ∧
  c1.min_amount_alert = c2.min_amount_alert ∧
  c1.max_anomalies = c2.max_anomalies

/-- Two stored row lists of the same shape whose values agree on every key
except possibly `auto_block_active`. -/
def rowsAgreeExceptAutoBlock (rows1 rows2 : List (String × String)) : Prop :=
  List.Forall₂
    (fun r1 r2 => r1.1 = r2.1 ∧ (r1.1 ≠ "auto_block_active" → r1.2 = r2.2))
    rows1 rows2

lemma applyRow_agree (c1 c2 : Config) (k v1 v2 : String)
    (hcfg : configAgreeExceptAutoBlock c1 c2)
    (hv : k ≠ "auto_block_active" → v1 = v2) :
    (applyRow c1 k v1 = none ∧ applyRow c2 k v2 = none) ∨
    (∃ d1 d2, applyRow c1 k v1 = some d1 ∧ applyRow c2 k v2 = some d2 ∧
      configAgreeExceptAutoBlock d1 d2) := by
  obtain ⟨h1, h2, h3, h4, h5⟩ := hcfg
  by_cases hk : k = "auto_block_active"
  · subst hk
    right
    refine ⟨{ c1 with auto_block_active := (v1 = "true" || v1 = "True") },
      { c2 with auto_block_active := (v2 = "true" || v2 = "True") },
      ?_, ?_, h1, h2, h3, h4, h5⟩ <;> simp +decide [applyRow]
  · have hv12 := hv hk
    subst hv12
    unfold applyRow
    split_ifs with e1 e2 e3 e4 e5
    · cases hp : parseFloat? v1 with
      | none => exact Or.inl ⟨by simp [hp], by simp [hp]⟩
      | some q =>
          exact Or.inr ⟨{ c1 with fraud_threshold_critical := q },
            { c2 with fraud_threshold_critical := q },
            by simp [hp], by simp [hp], rfl, h2, h3, h4, h5⟩
    · cases hp : parseFloat? v1 with
      | none => exact Or.inl ⟨by simp [hp], by simp [hp]⟩
      | some q =>
          exact Or.inr ⟨{ c1 with fraud_threshold_medium := q },
            { c2 with fraud_threshold_medium := q },
            by simp [hp], by simp [hp], h1, rfl, h3, h4, h5⟩
    · cases hp : parseJsonStrList? v1 with
      | none => exact Or.inr ⟨c1, c2, by simp [hp], by simp [hp],
          h1, h2, h3, h4, h5⟩
      | some l =>
          exact Or.inr ⟨{ c1 with sensitive_countries := l },
            { c2 with sensitive_countries := l },
            by simp [hp], by simp [hp], h1, h2, rfl, h4, h5⟩
    · cases hp : parseFloat? v1 with
      | none => exact Or.inl ⟨by simp [hp], by simp [hp]⟩
      | some q =>
          exact Or.inr ⟨{ c1 with min_amount_alert := q },
            { c2 with min_amount_alert := q },
            by simp [hp], by simp [hp], h1, h2, h3, rfl, h5⟩
    · cases hp : parseInt? v1 with
      | none => exact Or.inl ⟨by simp [hp], by simp [hp]⟩
      | some n =>
          exact Or.inr ⟨{ c1 with max_anomalies := n },
            { c2 with max_anomalies := n },
            by simp [hp], by simp [hp], h1, h2, h3, h4, rfl⟩
    · exact Or.inr ⟨c1, c2, rfl, rfl, h1, h2, h3, h4, h5⟩

lemma applyRows_agree (rows1 rows2 : List (String × String))
    (hrows : rowsAgreeExceptAutoBlock rows1 rows2) :
    ∀ c1 c2 : Config, configAgreeExceptAutoBlock c1 c2 →
      configAgreeExceptAutoBlock (applyRows c1 rows1) (applyRows c2 rows2) := by
  induction hrows with
  | nil => exact fun c1 c2 h => h
  | @cons r1 r2 rest1 rest2 hpair hrest ih =>
      intro c1 c2 hcfg
      obtain ⟨k1, v1⟩ := r1
      obtain ⟨k2, v2⟩ := r2
      obtain ⟨hk, hv⟩ := hpair
      simp only at hk hv
      subst hk
      rcases applyRow_agree c1 c2 k1 v1 v2 hcfg hv with
        ⟨hn1, hn2⟩ | ⟨d1, d2, hs1, hs2, hd⟩
      · simpa [applyRows, hn1, hn2] using hcfg
      · simpa [applyRows, hs1, hs2] using ih d1 d2 hd

lemma predict_agree (amount : ℚ) (category country : String) (c1 c2 : Config)
    (noise : ℚ) (h : configAgreeExceptAutoBlock c1 c2) :
    predict amount category country c1 noise =
      predict amount category country c2 noise := by
  obtain ⟨h1, h2, h3, h4, h5⟩ := h
  simp [predict, dampedScore, rawScore, countryBonus, h3, h4]

lemma decisionPolicy_agree (score : ℚ) (c1 c2 : Config)
    (h : configAgreeExceptAutoBlock c1 c2) :
    decisionPolicy score c1 = decisionPolicy score c2 := by
  obtain ⟨h1, h2, h3, h4, h5⟩ := h
  simp [decisionPolicy, h1, h2]

lemma scoredOutcome_agree (tx : TransactionInput) (c1 c2 : Config) (noise : ℚ)
    (h : configAgreeExceptAutoBlock c1 c2) :
    scoredOutcome tx c1 noise = scoredOutcome tx c2 noise := by
  have hp := predict_agree tx.amount tx.category
    (get_country_from_ip tx.ip_address) c1 c2 noise h
  have hd := decisionPolicy_agree (predict tx.amount tx.category
    (get_country_from_ip tx.ip_address) c1 noise) c1 c2 h
  simp only [scoredOutcome, hp] at hd ⊢
  rw [hd]

/-- C10: two analyze runs that differ only in the stored value of the
`auto_block_active` key (same transaction, same ban table, same remaining
rows, same noise draw) return identical results — action, score, severity
and alert behaviour all included — because `auto_block_active` is parsed
totally into the configuration (second conjunct) but never consulted by
the scoring or decision logic. -/
theorem C10_auto_block_active_noninterference (hashData : String → String)
    (tx : TransactionInput) (banTable : Option (List String)) (noise : ℚ)
    (rows1 rows2 : List (String × String))
    (hrows : rowsAgreeExceptAutoBlock rows1 rows2) :
    analyze_transaction hashData tx banTable (some rows1) noise =
      analyze_transaction hashData tx banTable (some rows2) noise ∧
    (∀ (c : Config) (v : String),
      applyRow c "auto_block_active" v =
        some { c with auto_block_active := (v = "true" || v = "True") }) := by
  constructor
  · have hcfg : configAgreeExceptAutoBlock (get_full_config (some rows1))
        (get_full_config (some rows2)) :=
      applyRows_agree rows1 rows2 hrows default_config default_config
        ⟨rfl, rfl, rfl, rfl, rfl⟩
    unfold analyze_transaction
    cases check_ban_list hashData banTable tx.ip_address tx.user_id with
    | error e => rfl
    | ok b =>
        cases b with
        | true => rfl
        | false => simp only [scoredOutcome_agree tx _ _ noise hcfg]
  · intro c v
    simp +decide [applyRow]

/-- Witness for C10: flipping the stored `auto_block_active` value from
"false" to "true" leaves the analyze result unchanged. -/
theorem C10_auto_block_active_noninterference_witness :
    rowsAgreeExceptAutoBlock [("auto_block_active", "false")]
      [("auto_block_active", "true")] ∧
    analyze_transaction (fun s => s) txFood (some [])
        (some [("auto_block_active", "false")]) 0 =
      analyze_transaction (fun s => s) txFood (some [])
        (some [("auto_block_active", "true")]) 0 :=
  ⟨List.Forall₂.cons ⟨rfl, fun hne => absurd rfl hne⟩ List.Forall₂.nil,
   (C10_auto_block_active_noninterference (fun s => s) txFood (some []) 0
      [("auto_block_active", "false")] [("auto_block_active", "true")]
      (List.Forall₂.cons ⟨rfl, fun hne => absurd rfl hne⟩ List.Forall₂.nil)).1⟩

end FraudGuard
